import Mathlib

/-!
Verification of the course-modes API contract and the mailchimp_id
management command of this repository.

The course-modes views themselves are not shipped with the sources (only
their test suite is), so the endpoint operations are modelled from the
specification (sections 2-7 of spec.md), faithful to its words and
consistent with the behaviour asserted by the test suite in
common/djangoapps/course_modes/api/v1/tests/test_views.py.
The mailchimp_id command is embedded directly from
lms/djangoapps/mailing/management/commands/mailchimp_id.py.
-/

namespace EdxPlatform

/-- Modelled from the spec: the CourseMode data model (spec section 3); the
views module defining the serializer is missing from the sources.  One
enrollment track for one course.  Timestamps are abstracted as natural
numbers. -/
structure CourseMode where
  course_id : String
  mode_slug : String
  mode_display_name : String
  min_price : Nat
  currency : String
  expiration_datetime : Option Nat
  expiration_datetime_is_explicit : Bool
  description : Option String
  sku : Option String
  bulk_sku : Option String
  deriving DecidableEq, Repr

/-- Modelled from the spec: record creation where only course_id, mode_slug,
mode_display_name, min_price and currency are set; every other field takes
its default from spec section 3 (expiration_datetime null,
expiration_datetime_is_explicit false, description, sku, bulk_sku null). -/
def CourseMode.make (cid slug name : String) (price : Nat) (curr : String) :
    CourseMode :=
  { course_id := cid
    mode_slug := slug
    mode_display_name := name
    min_price := price
    currency := curr
    expiration_datetime := none
    expiration_datetime_is_explicit := false
    description := none
    sku := none
    bulk_sku := none }

/-- Modelled from the spec: factory-style creation that also leaves the
currency unset, so it takes its default "usd" (spec section 3). -/
def CourseMode.fromFactory (cid slug name : String) (price : Nat) : CourseMode :=
  CourseMode.make cid slug name price "usd"

/-- The natural key of a record (spec section 3). -/
def modeKey (m : CourseMode) : String × String :=
  (m.course_id, m.mode_slug)

/-- An authenticated principal; only the staff flag matters to this core
(spec section 4.1). -/
structure Principal where
  username : String
  is_staff : Bool
  deriving DecidableEq, Repr

/-- An action requested of the gate (spec section 4.1). -/
inductive Action
  | read
  | write
  | delete
  deriving DecidableEq, Repr

/-- Modelled from the spec: AuthorizationGate (spec section 4.1) - only
principals flagged as staff are allowed, regardless of action. -/
def AuthorizationGate.allows (p : Principal) (_ : Action) : Bool :=
  p.is_staff

/-- HTTP-level outcomes of the endpoint operations (spec sections 6 and 7). -/
inductive HttpStatus
  | OK
  | CREATED
  | NO_CONTENT
  | FORBIDDEN
  | NOT_FOUND
  | VALIDATION
  deriving DecidableEq, Repr

/-- The serialized body of a response. -/
inductive Body
  | empty
  | one (m : CourseMode)
  | many (ms : List CourseMode)
  deriving DecidableEq, Repr

/-- An endpoint response: status together with serialized body. -/
structure Response where
  status : HttpStatus
  body : Body
  deriving DecidableEq, Repr

/-- The backing store of CourseModeRepository: the list of persisted
records. -/
abbrev Store := List CourseMode

/-- Modelled from the spec: CourseModeRepository lookup by natural key
(spec section 2.2). -/
def findMode (store : Store) (cid slug : String) : Option CourseMode :=
  List.find? (fun m => m.course_id == cid && m.mode_slug == slug) store

/-- Modelled from the spec: the create payload (spec section 4.2) - course_id,
mode_slug and mode_display_name are required; min_price and currency are
optional with defaults 0 and "usd". -/
structure CreatePayload where
  course_id : String
  mode_slug : String
  mode_display_name : String
  min_price : Option Nat
  currency : Option String
  deriving DecidableEq, Repr

/-- Modelled from the spec: a merge-patch payload (spec section 4.3) - each
non-key field is either present with a new value or absent.  The natural key
is supplied by the URL, not the payload (spec section 9). -/
structure PatchPayload where
  mode_display_name : Option String
  min_price : Option Nat
  currency : Option String
  expiration_datetime : Option (Option Nat)
  expiration_datetime_is_explicit : Option Bool
  description : Option (Option String)
  sku : Option (Option String)
  bulk_sku : Option (Option String)
  deriving DecidableEq, Repr

/-- The empty merge-patch payload: no field present. -/
def PatchPayload.empty : PatchPayload :=
  { mode_display_name := none
    min_price := none
    currency := none
    expiration_datetime := none
    expiration_datetime_is_explicit := none
    description := none
    sku := none
    bulk_sku := none }

/-- Modelled from the spec: merge-patch application (spec section 4.3) - only
fields present in the payload are changed, absent fields retain their prior
value. -/
def applyPatch (p : PatchPayload) (m : CourseMode) : CourseMode :=
  { m with
    mode_display_name := p.mode_display_name.getD m.mode_display_name
    min_price := p.min_price.getD m.min_price
    currency := p.currency.getD m.currency
    expiration_datetime := p.expiration_datetime.getD m.expiration_datetime
    expiration_datetime_is_explicit :=
      p.expiration_datetime_is_explicit.getD m.expiration_datetime_is_explicit
    description := p.description.getD m.description
    sku := p.sku.getD m.sku
    bulk_sku := p.bulk_sku.getD m.bulk_sku }

/-- Modelled from the spec: CollectionEndpoint.list (spec section 4.2) -
FORBIDDEN unless the gate allows; otherwise all records for the course,
each serialized with all fields. -/
def CollectionEndpoint.list (p : Principal) (store : Store) (cid : String) :
    Response × Store :=
  if AuthorizationGate.allows p Action.read then
    ({ status := HttpStatus.OK
       body := Body.many (store.filter (fun m => m.course_id == cid)) },
     store)
  else
    ({ status := HttpStatus.FORBIDDEN, body := Body.empty }, store)

/-- Modelled from the spec: CollectionEndpoint.create (spec section 4.2) -
FORBIDDEN unless the gate allows; a duplicate (course_id, mode_slug) is a
validation error; otherwise the record is persisted with defaults for the
optional fields and CREATED is returned. -/
def CollectionEndpoint.create (p : Principal) (store : Store)
    (payload : CreatePayload) : Response × Store :=
  if AuthorizationGate.allows p Action.write then
    match findMode store payload.course_id payload.mode_slug with
    | some _ =>
        ({ status := HttpStatus.VALIDATION, body := Body.empty }, store)
    | none =>
        ({ status := HttpStatus.CREATED, body := Body.empty },
         store ++ [CourseMode.make payload.course_id payload.mode_slug
            payload.mode_display_name (payload.min_price.getD 0)
            (payload.currency.getD "usd")])
  else
    ({ status := HttpStatus.FORBIDDEN, body := Body.empty }, store)

/-- Modelled from the spec: DetailEndpoint.retrieve (spec section 4.3) -
FORBIDDEN unless the gate allows; otherwise the full record, or NOT_FOUND
when no matching (course_id, mode_slug) exists. -/
def DetailEndpoint.retrieve (p : Principal) (store : Store)
    (cid slug : String) : Response × Store :=
  if AuthorizationGate.allows p Action.read then
    match findMode store cid slug with
    | some m => ({ status := HttpStatus.OK, body := Body.one m }, store)
    | none => ({ status := HttpStatus.NOT_FOUND, body := Body.empty }, store)
  else
    ({ status := HttpStatus.FORBIDDEN, body := Body.empty }, store)

/-- Modelled from the spec: DetailEndpoint.update (spec section 4.3) -
FORBIDDEN unless the gate allows; NOT_FOUND when the record is absent;
otherwise the record is merge-patched and NO_CONTENT is returned. -/
def DetailEndpoint.update (p : Principal) (store : Store) (cid slug : String)
    (patch : PatchPayload) : Response × Store :=
  if AuthorizationGate.allows p Action.write then
    match findMode store cid slug with
    | some _ =>
        ({ status := HttpStatus.NO_CONTENT, body := Body.empty },
         store.map (fun m =>
           if m.course_id == cid && m.mode_slug == slug then
             applyPatch patch m
           else m))
    | none => ({ status := HttpStatus.NOT_FOUND, body := Body.empty }, store)
  else
    ({ status := HttpStatus.FORBIDDEN, body := Body.empty }, store)

/-- Modelled from the spec: DetailEndpoint.delete (spec section 4.3) -
FORBIDDEN unless the gate allows; NOT_FOUND when the record is absent;
otherwise the record is removed and NO_CONTENT is returned. -/
def DetailEndpoint.delete (p : Principal) (store : Store)
    (cid slug : String) : Response × Store :=
  if AuthorizationGate.allows p Action.delete then
    match findMode store cid slug with
    | some _ =>
        ({ status := HttpStatus.NO_CONTENT, body := Body.empty },
         store.filter (fun m => !(m.course_id == cid && m.mode_slug == slug)))
    | none => ({ status := HttpStatus.NOT_FOUND, body := Body.empty }, store)
  else
    ({ status := HttpStatus.FORBIDDEN, body := Body.empty }, store)

/-- The uniqueness invariant of spec section 3: (course_id, mode_slug)
uniquely identifies a record. -/
def keyUnique (store : Store) : Prop :=
  (store.map modeKey).Nodup

instance (store : Store) : Decidable (keyUnique store) :=
  inferInstanceAs (Decidable (store.map modeKey).Nodup)

end EdxPlatform

namespace MailchimpId

/-- One mailing list as returned by the mailchimp lists endpoint; the fields
the command reads (mailchimp_id.py lines 39-48). -/
structure MailingList where
  web_id : Int
  id : String
  name : String
  deriving DecidableEq, Repr

/-- The observable outcome of the command: the printed lines and the exit
status (0 for normal termination, 1 via sys.exit(1)). -/
structure HandleResult where
  output : List String
  exitCode : Nat
  deriving DecidableEq, Repr

/-- The dict comprehension by_web_id (mailchimp_id.py line 40) followed by
.get(web_id): later entries overwrite earlier ones, so the lookup yields the
last list carrying the given web_id. -/
def byWebId (lists : List MailingList) (w : Int) : Option MailingList :=
  List.find? (fun l => l.web_id == w) lists.reverse

/-- Command.handle (mailchimp_id.py lines 30-49): the network call
mailchimp.lists()['data'] is abstracted as the input lists. -/
def handle (_key : String) (web_id : Int) (lists : List MailingList) :
    HandleResult :=
  match byWebId lists web_id with
  | some l =>
      { output := ["id: " ++ l.id ++ " for web_id: " ++ toString web_id,
                   "list name: " ++ l.name]
        exitCode := 0 }
  | none =>
      { output := ["list with web_id: " ++ toString web_id ++ " not found."]
        exitCode := 1 }

end MailchimpId

namespace EdxPlatform

/-- The demo course identifier used by the test suite. -/
def demoCourse : String := "course-v1:edX+DemoX+Demo_Course"

/-- The audit mode fixture of the test suite (min_price 0, defaults). -/
def auditMode : CourseMode := CourseMode.fromFactory demoCourse "audit" "Audit" 0

/-- The verified mode fixture of the test suite (min_price 25, defaults). -/
def verifiedMode : CourseMode :=
  CourseMode.fromFactory demoCourse "verified" "Verified" 25

/-- The prof-ed fixture of the merge-patch test (currency "jpy"). -/
def profEdMode : CourseMode :=
  CourseMode.make demoCourse "prof-ed" "Professional Education" 100 "jpy"

/-- The store holding the two class-level fixtures. -/
def demoStore : Store := [auditMode, verifiedMode]

/-- The store of the merge-patch test: the two fixtures plus prof-ed. -/
def profEdStore : Store := [auditMode, verifiedMode, profEdMode]

/-- A staff principal. -/
def staffUser : Principal := { username := "staff", is_staff := true }

/-- A non-staff principal (the other_student of the test suite). -/
def studentUser : Principal := { username := "student", is_staff := false }

/-- The create payload of the happy-path create test. -/
def mastersPayload : CreatePayload :=
  { course_id := demoCourse
    mode_slug := "masters"
    mode_display_name := "Masters"
    min_price := some 0
    currency := some "usd" }

/-- The merge-patch payload of the happy-path update test: min_price 222 and
mode_display_name "Something Else", every other field absent. -/
def profEdPatch : PatchPayload :=
  { PatchPayload.empty with
    min_price := some 222
    mode_display_name := some "Something Else" }

/-- C1: for every non-staff principal, every operation of the course-modes
API - list, create, retrieve, update, delete - on every course and mode slug
returns FORBIDDEN, regardless of whether the addressed resource exists. -/
theorem nonstaff_all_forbidden (p : Principal) (store : Store)
    (cid slug : String) (payload : CreatePayload) (patch : PatchPayload)
    (h : p.is_staff = false) :
    (CollectionEndpoint.list p store cid).1.status = HttpStatus.FORBIDDEN ∧
    (CollectionEndpoint.create p store payload).1.status =
      HttpStatus.FORBIDDEN ∧
    (DetailEndpoint.retrieve p store cid slug).1.status =
      HttpStatus.FORBIDDEN ∧
    (DetailEndpoint.update p store cid slug patch).1.status =
      HttpStatus.FORBIDDEN ∧
    (DetailEndpoint.delete p store cid slug).1.status =
      HttpStatus.FORBIDDEN := by
  simp [CollectionEndpoint.list, CollectionEndpoint.create,
    DetailEndpoint.retrieve, DetailEndpoint.update, DetailEndpoint.delete,
    AuthorizationGate.allows, h]

/-- Witness for C1 at the test-suite inputs: the non-staff student is denied
every operation on the demo store. -/
theorem nonstaff_all_forbidden_witness :
    studentUser.is_staff = false ∧
    ((CollectionEndpoint.list studentUser demoStore demoCourse).1.status =
        HttpStatus.FORBIDDEN ∧
      (CollectionEndpoint.create studentUser demoStore
          mastersPayload).1.status = HttpStatus.FORBIDDEN ∧
      (DetailEndpoint.retrieve studentUser demoStore demoCourse
          "audit").1.status = HttpStatus.FORBIDDEN ∧
      (DetailEndpoint.update studentUser demoStore demoCourse "audit"
          profEdPatch).1.status = HttpStatus.FORBIDDEN ∧
      (DetailEndpoint.delete studentUser demoStore demoCourse
          "audit").1.status = HttpStatus.FORBIDDEN) :=
  ⟨rfl, nonstaff_all_forbidden studentUser demoStore demoCourse "audit"
    mastersPayload profEdPatch rfl⟩

/-- C2: for an unauthorized caller the responses of retrieve, update and
delete are identical across any two stores - in particular across the run
where the addressed record exists and the run where it does not - and always
equal the FORBIDDEN response, so nothing about resource existence leaks. -/
theorem unauthorized_noleak (p : Principal) (store1 store2 : Store)
    (cid slug : String) (patch : PatchPayload)
    (h : p.is_staff = false) :
    (DetailEndpoint.retrieve p store1 cid slug).1 =
      (DetailEndpoint.retrieve p store2 cid slug).1 ∧
    (DetailEndpoint.update p store1 cid slug patch).1 =
      (DetailEndpoint.update p store2 cid slug patch).1 ∧
    (DetailEndpoint.delete p store1 cid slug).1 =
      (DetailEndpoint.delete p store2 cid slug).1 ∧
    (DetailEndpoint.retrieve p store1 cid slug).1 =
      { status := HttpStatus.FORBIDDEN, body := Body.empty } ∧
    (DetailEndpoint.update p store1 cid slug patch).1 =
      { status := HttpStatus.FORBIDDEN, body := Body.empty } ∧
    (DetailEndpoint.delete p store1 cid slug).1 =
      { status := HttpStatus.FORBIDDEN, body := Body.empty } := by
  simp [DetailEndpoint.retrieve, DetailEndpoint.update,
    DetailEndpoint.delete, AuthorizationGate.allows, h]

/-- Witness for C2: for the student, the response on the demo store (where
the audit record exists) equals the response on the empty store (where it
does not), and both are FORBIDDEN. -/
theorem unauthorized_noleak_witness :
    studentUser.is_staff = false ∧
    ((DetailEndpoint.retrieve studentUser demoStore demoCourse "audit").1 =
        (DetailEndpoint.retrieve studentUser [] demoCourse "audit").1 ∧
      (DetailEndpoint.update studentUser demoStore demoCourse "audit"
          profEdPatch).1 =
        (DetailEndpoint.update studentUser [] demoCourse "audit"
          profEdPatch).1 ∧
      (DetailEndpoint.delete studentUser demoStore demoCourse "audit").1 =
        (DetailEndpoint.delete studentUser [] demoCourse "audit").1 ∧
      (DetailEndpoint.retrieve studentUser demoStore demoCourse "audit").1 =
        { status := HttpStatus.FORBIDDEN, body := Body.empty } ∧
      (DetailEndpoint.update studentUser demoStore demoCourse "audit"
          profEdPatch).1 =
        { status := HttpStatus.FORBIDDEN, body := Body.empty } ∧
      (DetailEndpoint.delete studentUser demoStore demoCourse "audit").1 =
        { status := HttpStatus.FORBIDDEN, body := Body.empty }) :=
  ⟨rfl, unauthorized_noleak studentUser demoStore [] demoCourse "audit"
    profEdPatch rfl⟩

/-- C4: for every staff caller and every (course_id, mode_slug) for which no
record exists, retrieve, update and delete each return NOT_FOUND and leave
the store unchanged. -/
theorem staff_missing_not_found (p : Principal) (store : Store)
    (cid slug : String) (patch : PatchPayload)
    (hstaff : p.is_staff = true)
    (hnone : findMode store cid slug = none) :
    DetailEndpoint.retrieve p store cid slug =
      ({ status := HttpStatus.NOT_FOUND, body := Body.empty }, store) ∧
    DetailEndpoint.update p store cid slug patch =
      ({ status := HttpStatus.NOT_FOUND, body := Body.empty }, store) ∧
    DetailEndpoint.delete p store cid slug =
      ({ status := HttpStatus.NOT_FOUND, body := Body.empty }, store) := by
  simp [DetailEndpoint.retrieve, DetailEndpoint.update,
    DetailEndpoint.delete, AuthorizationGate.allows, hstaff, hnone]

/-- Witness for C4 at the test-suite input: the staff caller addressing the
slug does-not-exist on the demo store gets NOT_FOUND from all three detail
operations, with the store untouched. -/
theorem staff_missing_not_found_witness :
    staffUser.is_staff = true ∧
    findMode demoStore demoCourse "does-not-exist" = none ∧
    (DetailEndpoint.retrieve staffUser demoStore demoCourse "does-not-exist" =
        ({ status := HttpStatus.NOT_FOUND, body := Body.empty }, demoStore) ∧
      DetailEndpoint.update staffUser demoStore demoCourse "does-not-exist"
          profEdPatch =
        ({ status := HttpStatus.NOT_FOUND, body := Body.empty }, demoStore) ∧
      DetailEndpoint.delete staffUser demoStore demoCourse "does-not-exist" =
        ({ status := HttpStatus.NOT_FOUND, body := Body.empty }, demoStore)) :=
  ⟨rfl, by decide,
    staff_missing_not_found staffUser demoStore demoCourse "does-not-exist"
      profEdPatch rfl (by decide)⟩

/-- C9: creating a mode whose (course_id, mode_slug) already exists is a
validation error, not CREATED, and leaves the store - in particular the
existing record - unchanged. -/
theorem create_duplicate_rejected (p : Principal) (store : Store)
    (payload : CreatePayload) (m0 : CourseMode)
    (hstaff : p.is_staff = true)
    (hdup : findMode store payload.course_id payload.mode_slug = some m0) :
    (CollectionEndpoint.create p store payload).1.status =
      HttpStatus.VALIDATION ∧
    (CollectionEndpoint.create p store payload).1.status ≠
      HttpStatus.CREATED ∧
    (CollectionEndpoint.create p store payload).2 = store ∧
    findMode (CollectionEndpoint.create p store payload).2
      payload.course_id payload.mode_slug = some m0 := by
  simp [CollectionEndpoint.create, AuthorizationGate.allows, hstaff, hdup]

/-- Witness for C9: re-creating the existing audit mode of the demo store is
rejected as VALIDATION and the store keeps the original record. -/
theorem create_duplicate_rejected_witness :
    staffUser.is_staff = true ∧
    findMode demoStore
        { course_id := demoCourse
          mode_slug := "audit"
          mode_display_name := "Audit Again"
          min_price := some 7
          currency := some "usd" : CreatePayload }.course_id
        { course_id := demoCourse
          mode_slug := "audit"
          mode_display_name := "Audit Again"
          min_price := some 7
          currency := some "usd" : CreatePayload }.mode_slug =
      some auditMode ∧
    ((CollectionEndpoint.create staffUser demoStore
          { course_id := demoCourse
            mode_slug := "audit"
            mode_display_name := "Audit Again"
            min_price := some 7
            currency := some "usd" }).1.status = HttpStatus.VALIDATION ∧
      (CollectionEndpoint.create staffUser demoStore
          { course_id := demoCourse
            mode_slug := "audit"
            mode_display_name := "Audit Again"
            min_price := some 7
            currency := some "usd" }).1.status ≠ HttpStatus.CREATED ∧
      (CollectionEndpoint.create staffUser demoStore
          { course_id := demoCourse
            mode_slug := "audit"
            mode_display_name := "Audit Again"
            min_price := some 7
            currency := some "usd" }).2 = demoStore ∧
      findMode (CollectionEndpoint.create staffUser demoStore
            { course_id := demoCourse
              mode_slug := "audit"
              mode_display_name := "Audit Again"
              min_price := some 7
              currency := some "usd" }).2 demoCourse "audit" =
        some auditMode) :=
  ⟨rfl, by decide,
    create_duplicate_rejected staffUser demoStore
      { course_id := demoCourse
        mode_slug := "audit"
        mode_display_name := "Audit Again"
        min_price := some 7
        currency := some "usd" } auditMode rfl (by decide)⟩

/-- Merge-patch never changes the natural key: the key is supplied by the
URL, not the payload. -/
theorem applyPatch_modeKey (patch : PatchPayload) (m : CourseMode) :
    modeKey (applyPatch patch m) = modeKey m := rfl

/-- Lookup by natural key commutes with patching the matching record in
place, because patching preserves the key. -/
theorem findMode_map_patch (store : Store) (cid slug : String)
    (patch : PatchPayload) :
    findMode (store.map (fun m =>
        if m.course_id == cid && m.mode_slug == slug then applyPatch patch m
        else m)) cid slug =
      (findMode store cid slug).map (fun m =>
        if m.course_id == cid && m.mode_slug == slug then applyPatch patch m
        else m) := by
  unfold findMode
  rw [List.find?_map]
  have hpred : ((fun m : CourseMode =>
        m.course_id == cid && m.mode_slug == slug) ∘ fun m =>
        if m.course_id == cid && m.mode_slug == slug then applyPatch patch m
        else m) =
      fun m : CourseMode => m.course_id == cid && m.mode_slug == slug := by
    funext m
    by_cases hm : (m.course_id == cid && m.mode_slug == slug) = true
    · simp only [Function.comp_apply, if_pos hm]
      show ((applyPatch patch m).course_id == cid &&
        (applyPatch patch m).mode_slug == slug) = _
      exact hm.trans hm.symm
    · simp only [Function.comp_apply, if_neg hm]
  rw [hpred]

/-- C3: for every existing record and every merge-patch payload, update by a
staff caller returns NO_CONTENT, the stored record becomes the patch of the
prior record, records with other keys survive untouched, each field present
in the payload takes the supplied value, each absent field retains its
prior value, and the natural key is never changed. -/
theorem update_merge_patch (p : Principal) (store : Store) (cid slug : String)
    (patch : PatchPayload) (m0 : CourseMode)
    (hstaff : p.is_staff = true)
    (hfind : findMode store cid slug = some m0) :
    (DetailEndpoint.update p store cid slug patch).1 =
      { status := HttpStatus.NO_CONTENT, body := Body.empty } ∧
    findMode (DetailEndpoint.update p store cid slug patch).2 cid slug =
      some (applyPatch patch m0) ∧
    (∀ m ∈ store, (m.course_id == cid && m.mode_slug == slug) = false →
      m ∈ (DetailEndpoint.update p store cid slug patch).2) ∧
    (applyPatch patch m0).course_id = m0.course_id ∧
    (applyPatch patch m0).mode_slug = m0.mode_slug ∧
    (∀ v, patch.mode_display_name = some v →
      (applyPatch patch m0).mode_display_name = v) ∧
    (patch.mode_display_name = none →
      (applyPatch patch m0).mode_display_name = m0.mode_display_name) ∧
    (∀ v, patch.min_price = some v → (applyPatch patch m0).min_price = v) ∧
    (patch.min_price = none →
      (applyPatch patch m0).min_price = m0.min_price) ∧
    (∀ v, patch.currency = some v → (applyPatch patch m0).currency = v) ∧
    (patch.currency = none →
      (applyPatch patch m0).currency = m0.currency) ∧
    (∀ v, patch.expiration_datetime = some v →
      (applyPatch patch m0).expiration_datetime = v) ∧
    (patch.expiration_datetime = none →
      (applyPatch patch m0).expiration_datetime = m0.expiration_datetime) ∧
    (∀ v, patch.expiration_datetime_is_explicit = some v →
      (applyPatch patch m0).expiration_datetime_is_explicit = v) ∧
    (patch.expiration_datetime_is_explicit = none →
      (applyPatch patch m0).expiration_datetime_is_explicit =
        m0.expiration_datetime_is_explicit) ∧
    (∀ v, patch.description = some v →
      (applyPatch patch m0).description = v) ∧
    (patch.description = none →
      (applyPatch patch m0).description = m0.description) ∧
    (∀ v, patch.sku = some v → (applyPatch patch m0).sku = v) ∧
    (patch.sku = none → (applyPatch patch m0).sku = m0.sku) ∧
    (∀ v, patch.bulk_sku = some v → (applyPatch patch m0).bulk_sku = v) ∧
    (patch.bulk_sku = none →
      (applyPatch patch m0).bulk_sku = m0.bulk_sku) := by
  have hstore : (DetailEndpoint.update p store cid slug patch).2 =
      store.map (fun m =>
        if m.course_id == cid && m.mode_slug == slug then applyPatch patch m
        else m) := by
    simp [DetailEndpoint.update, AuthorizationGate.allows, hstaff, hfind]
  have hfind' : List.find?
      (fun m => m.course_id == cid && m.mode_slug == slug) store = some m0 :=
    hfind
  have hq0 : (m0.course_id == cid && m0.mode_slug == slug) = true :=
    (List.find?_eq_some.mp hfind').1
  refine ⟨?_, ?_, ?_, rfl, rfl,
    fun v hv => by simp [applyPatch, hv], fun hn => by simp [applyPatch, hn],
    fun v hv => by simp [applyPatch, hv], fun hn => by simp [applyPatch, hn],
    fun v hv => by simp [applyPatch, hv], fun hn => by simp [applyPatch, hn],
    fun v hv => by simp [applyPatch, hv], fun hn => by simp [applyPatch, hn],
    fun v hv => by simp [applyPatch, hv], fun hn => by simp [applyPatch, hn],
    fun v hv => by simp [applyPatch, hv], fun hn => by simp [applyPatch, hn],
    fun v hv => by simp [applyPatch, hv], fun hn => by simp [applyPatch, hn],
    fun v hv => by simp [applyPatch, hv], fun hn => by simp [applyPatch, hn]⟩
  · simp [DetailEndpoint.update, AuthorizationGate.allows, hstaff, hfind]
  · rw [hstore, findMode_map_patch, hfind, Option.map_some', if_pos hq0]
  · intro m hm hq
    rw [hstore]
    have hfm : (if m.course_id == cid && m.mode_slug == slug then
        applyPatch patch m else m) = m := by
      rw [if_neg (by simp [hq])]
    exact hfm ▸ List.mem_map_of_mem _ hm

/-- Witness for C3 at the test-suite input: patching min_price and
mode_display_name of the prof-ed record returns NO_CONTENT, stores the
patched record, and leaves its currency "jpy" untouched. -/
theorem update_merge_patch_witness :
    staffUser.is_staff = true ∧
    findMode profEdStore demoCourse "prof-ed" = some profEdMode ∧
    ((DetailEndpoint.update staffUser profEdStore demoCourse "prof-ed"
          profEdPatch).1 =
        { status := HttpStatus.NO_CONTENT, body := Body.empty } ∧
      findMode (DetailEndpoint.update staffUser profEdStore demoCourse
          "prof-ed" profEdPatch).2 demoCourse "prof-ed" =
        some (applyPatch profEdPatch profEdMode) ∧
      (∀ m ∈ profEdStore,
        (m.course_id == demoCourse && m.mode_slug == "prof-ed") = false →
        m ∈ (DetailEndpoint.update staffUser profEdStore demoCourse "prof-ed"
          profEdPatch).2) ∧
      (applyPatch profEdPatch profEdMode).course_id = profEdMode.course_id ∧
      (applyPatch profEdPatch profEdMode).mode_slug = profEdMode.mode_slug ∧
      (∀ v, profEdPatch.mode_display_name = some v →
        (applyPatch profEdPatch profEdMode).mode_display_name = v) ∧
      (profEdPatch.mode_display_name = none →
        (applyPatch profEdPatch profEdMode).mode_display_name =
          profEdMode.mode_display_name) ∧
      (∀ v, profEdPatch.min_price = some v →
        (applyPatch profEdPatch profEdMode).min_price = v) ∧
      (profEdPatch.min_price = none →
        (applyPatch profEdPatch profEdMode).min_price =
          profEdMode.min_price) ∧
      (∀ v, profEdPatch.currency = some v →
        (applyPatch profEdPatch profEdMode).currency = v) ∧
      (profEdPatch.currency = none →
        (applyPatch profEdPatch profEdMode).currency =
          profEdMode.currency) ∧
      (∀ v, profEdPatch.expiration_datetime = some v →
        (applyPatch profEdPatch profEdMode).expiration_datetime = v) ∧
      (profEdPatch.expiration_datetime = none →
        (applyPatch profEdPatch profEdMode).expiration_datetime =
          profEdMode.expiration_datetime) ∧
      (∀ v, profEdPatch.expiration_datetime_is_explicit = some v →
        (applyPatch profEdPatch profEdMode).expiration_datetime_is_explicit =
          v) ∧
      (profEdPatch.expiration_datetime_is_explicit = none →
        (applyPatch profEdPatch profEdMode).expiration_datetime_is_explicit =
          profEdMode.expiration_datetime_is_explicit) ∧
      (∀ v, profEdPatch.description = some v →
        (applyPatch profEdPatch profEdMode).description = v) ∧
      (profEdPatch.description = none →
        (applyPatch profEdPatch profEdMode).description =
          profEdMode.description) ∧
      (∀ v, profEdPatch.sku = some v →
        (applyPatch profEdPatch profEdMode).sku = v) ∧
      (profEdPatch.sku = none →
        (applyPatch profEdPatch profEdMode).sku = profEdMode.sku) ∧
      (∀ v, profEdPatch.bulk_sku = some v →
        (applyPatch profEdPatch profEdMode).bulk_sku = v) ∧
      (profEdPatch.bulk_sku = none →
        (applyPatch profEdPatch profEdMode).bulk_sku =
          profEdMode.bulk_sku)) :=
  ⟨rfl, by decide,
    update_merge_patch staffUser profEdStore demoCourse "prof-ed" profEdPatch
      profEdMode rfl (by decide)⟩

/-- C5: for a staff caller, list(course_id) succeeds with exactly the
records whose course_id matches - no others, none missing - each carrying
all fields of the data model, and records created with only the required
fields take the documented defaults (currency "usd", expiration null and
not explicit, description, sku and bulk_sku null). -/
theorem list_staff_exact (p : Principal) (store : Store) (cid : String)
    (hstaff : p.is_staff = true) :
    CollectionEndpoint.list p store cid =
      ({ status := HttpStatus.OK
         body := Body.many (store.filter (fun m => m.course_id == cid)) },
       store) ∧
    (∀ m : CourseMode,
      m ∈ store.filter (fun m => m.course_id == cid) ↔
        m ∈ store ∧ m.course_id = cid) ∧
    (∀ c s n pr,
      (CourseMode.fromFactory c s n pr).currency = "usd" ∧
      (CourseMode.fromFactory c s n pr).expiration_datetime = none ∧
      (CourseMode.fromFactory c s n pr).expiration_datetime_is_explicit =
        false ∧
      (CourseMode.fromFactory c s n pr).description = none ∧
      (CourseMode.fromFactory c s n pr).sku = none ∧
      (CourseMode.fromFactory c s n pr).bulk_sku = none) := by
  refine ⟨?_, ?_, ?_⟩
  · simp [CollectionEndpoint.list, AuthorizationGate.allows, hstaff]
  · intro m
    simp [List.mem_filter]
  · intro c s n pr
    exact ⟨rfl, rfl, rfl, rfl, rfl, rfl⟩

/-- Witness for C5 at the test-suite input: listing the demo course as staff
returns exactly the audit and verified fixtures. -/
theorem list_staff_exact_witness :
    staffUser.is_staff = true ∧
    (CollectionEndpoint.list staffUser demoStore demoCourse =
        ({ status := HttpStatus.OK
           body := Body.many (demoStore.filter
             (fun m => m.course_id == demoCourse)) },
         demoStore) ∧
      (∀ m : CourseMode,
        m ∈ demoStore.filter (fun m => m.course_id == demoCourse) ↔
          m ∈ demoStore ∧ m.course_id = demoCourse) ∧
      (∀ c s n pr,
        (CourseMode.fromFactory c s n pr).currency = "usd" ∧
        (CourseMode.fromFactory c s n pr).expiration_datetime = none ∧
        (CourseMode.fromFactory c s n pr).expiration_datetime_is_explicit =
          false ∧
        (CourseMode.fromFactory c s n pr).description = none ∧
        (CourseMode.fromFactory c s n pr).sku = none ∧
        (CourseMode.fromFactory c s n pr).bulk_sku = none)) :=
  ⟨rfl, list_staff_exact staffUser demoStore demoCourse rfl⟩

/-- C6: create followed by retrieve round-trips: when a staff caller creates
a mode whose (course_id, mode_slug) is fresh with all five payload fields
supplied, create returns CREATED and retrieving the same natural key yields
a record whose fields equal the supplied values exactly. -/
theorem create_retrieve_roundtrip (p : Principal) (store : Store)
    (payload : CreatePayload) (price : Nat) (curr : String)
    (hstaff : p.is_staff = true)
    (hfresh : findMode store payload.course_id payload.mode_slug = none)
    (hprice : payload.min_price = some price)
    (hcurr : payload.currency = some curr) :
    (CollectionEndpoint.create p store payload).1.status =
      HttpStatus.CREATED ∧
    (DetailEndpoint.retrieve p (CollectionEndpoint.create p store payload).2
        payload.course_id payload.mode_slug).1 =
      { status := HttpStatus.OK
        body := Body.one (CourseMode.make payload.course_id payload.mode_slug
          payload.mode_display_name price curr) } ∧
    (CourseMode.make payload.course_id payload.mode_slug
      payload.mode_display_name price curr).course_id = payload.course_id ∧
    (CourseMode.make payload.course_id payload.mode_slug
      payload.mode_display_name price curr).mode_slug = payload.mode_slug ∧
    (CourseMode.make payload.course_id payload.mode_slug
        payload.mode_display_name price curr).mode_display_name =
      payload.mode_display_name ∧
    (CourseMode.make payload.course_id payload.mode_slug
      payload.mode_display_name price curr).min_price = price ∧
    (CourseMode.make payload.course_id payload.mode_slug
      payload.mode_display_name price curr).currency = curr := by
  have hstore : (CollectionEndpoint.create p store payload).2 =
      store ++ [CourseMode.make payload.course_id payload.mode_slug
        payload.mode_display_name price curr] := by
    simp [CollectionEndpoint.create, AuthorizationGate.allows, hstaff,
      hfresh, hprice, hcurr]
  have hnew : findMode (CollectionEndpoint.create p store payload).2
      payload.course_id payload.mode_slug =
      some (CourseMode.make payload.course_id payload.mode_slug
        payload.mode_display_name price curr) := by
    rw [hstore]
    unfold findMode at hfresh ⊢
    rw [List.find?_append, hfresh]
    simp [CourseMode.make]
  refine ⟨?_, ?_, rfl, rfl, rfl, rfl, rfl⟩
  · simp [CollectionEndpoint.create, AuthorizationGate.allows, hstaff,
      hfresh]
  · simp [DetailEndpoint.retrieve, AuthorizationGate.allows, hstaff, hnew]

/-- Witness for C6 at the test-suite input: creating the masters mode on the
demo store and retrieving it round-trips all supplied fields. -/
theorem create_retrieve_roundtrip_witness :
    staffUser.is_staff = true ∧
    findMode demoStore mastersPayload.course_id mastersPayload.mode_slug =
      none ∧
    mastersPayload.min_price = some 0 ∧
    mastersPayload.currency = some "usd" ∧
    ((CollectionEndpoint.create staffUser demoStore mastersPayload).1.status =
        HttpStatus.CREATED ∧
      (DetailEndpoint.retrieve staffUser
          (CollectionEndpoint.create staffUser demoStore mastersPayload).2
          mastersPayload.course_id mastersPayload.mode_slug).1 =
        { status := HttpStatus.OK
          body := Body.one (CourseMode.make mastersPayload.course_id
            mastersPayload.mode_slug mastersPayload.mode_display_name 0
            "usd") } ∧
      (CourseMode.make mastersPayload.course_id mastersPayload.mode_slug
          mastersPayload.mode_display_name 0 "usd").course_id =
        mastersPayload.course_id ∧
      (CourseMode.make mastersPayload.course_id mastersPayload.mode_slug
          mastersPayload.mode_display_name 0 "usd").mode_slug =
        mastersPayload.mode_slug ∧
      (CourseMode.make mastersPayload.course_id mastersPayload.mode_slug
          mastersPayload.mode_display_name 0 "usd").mode_display_name =
        mastersPayload.mode_display_name ∧
      (CourseMode.make mastersPayload.course_id mastersPayload.mode_slug
          mastersPayload.mode_display_name 0 "usd").min_price = 0 ∧
      (CourseMode.make mastersPayload.course_id mastersPayload.mode_slug
          mastersPayload.mode_display_name 0 "usd").currency = "usd") :=
  ⟨rfl, by decide, rfl, rfl,
    create_retrieve_roundtrip staffUser demoStore mastersPayload 0 "usd"
      rfl (by decide) rfl rfl⟩

/-- C7: deleting an existing record as staff returns NO_CONTENT, a
subsequent retrieve of the same natural key returns NOT_FOUND, and the count
of records with that (course_id, mode_slug) becomes zero. -/
theorem delete_then_gone (p : Principal) (store : Store) (cid slug : String)
    (m0 : CourseMode)
    (hstaff : p.is_staff = true)
    (hfind : findMode store cid slug = some m0) :
    (DetailEndpoint.delete p store cid slug).1 =
      { status := HttpStatus.NO_CONTENT, body := Body.empty } ∧
    (DetailEndpoint.retrieve p (DetailEndpoint.delete p store cid slug).2
        cid slug).1 =
      { status := HttpStatus.NOT_FOUND, body := Body.empty } ∧
    ((DetailEndpoint.delete p store cid slug).2.filter
        (fun m => m.course_id == cid && m.mode_slug == slug)).length = 0 := by
  have hstore : (DetailEndpoint.delete p store cid slug).2 =
      store.filter
        (fun m => !(m.course_id == cid && m.mode_slug == slug)) := by
    simp [DetailEndpoint.delete, AuthorizationGate.allows, hstaff, hfind]
  have hnone : findMode (DetailEndpoint.delete p store cid slug).2
      cid slug = none := by
    rw [hstore]
    unfold findMode
    rw [List.find?_eq_none]
    intro x hx hq
    have hneg := (List.mem_filter.mp hx).2
    rw [hq] at hneg
    simp at hneg
  refine ⟨?_, ?_, ?_⟩
  · simp [DetailEndpoint.delete, AuthorizationGate.allows, hstaff, hfind]
  · simp [DetailEndpoint.retrieve, AuthorizationGate.allows, hstaff, hnone]
  · rw [hstore, List.filter_filter, List.length_eq_zero,
      List.filter_eq_nil_iff]
    intro a _ hq
    have := (Bool.and_eq_true _ _).mp hq
    rw [this.1] at this
    exact Bool.false_ne_true (by simpa using this.2)

/-- Witness for C7 at the test-suite input: deleting the bachelors record
makes its later retrieval NOT_FOUND and its record count zero. -/
theorem delete_then_gone_witness :
    staffUser.is_staff = true ∧
    findMode (demoStore ++
        [CourseMode.fromFactory demoCourse "bachelors" "Bachelors" 1000])
      demoCourse "bachelors" =
      some (CourseMode.fromFactory demoCourse "bachelors" "Bachelors"
        1000) ∧
    ((DetailEndpoint.delete staffUser (demoStore ++
          [CourseMode.fromFactory demoCourse "bachelors" "Bachelors" 1000])
          demoCourse "bachelors").1 =
        { status := HttpStatus.NO_CONTENT, body := Body.empty } ∧
      (DetailEndpoint.retrieve staffUser
          (DetailEndpoint.delete staffUser (demoStore ++
            [CourseMode.fromFactory demoCourse "bachelors" "Bachelors" 1000])
            demoCourse "bachelors").2 demoCourse "bachelors").1 =
        { status := HttpStatus.NOT_FOUND, body := Body.empty } ∧
      ((DetailEndpoint.delete staffUser (demoStore ++
            [CourseMode.fromFactory demoCourse "bachelors" "Bachelors" 1000])
            demoCourse "bachelors").2.filter
          (fun m => m.course_id == demoCourse &&
            m.mode_slug == "bachelors")).length = 0) :=
  ⟨rfl, by decide,
    delete_then_gone staffUser (demoStore ++
        [CourseMode.fromFactory demoCourse "bachelors" "Bachelors" 1000])
      demoCourse "bachelors"
      (CourseMode.fromFactory demoCourse "bachelors" "Bachelors" 1000)
      rfl (by decide)⟩

/-- List never changes the store. -/
theorem list_preserves_store (p : Principal) (store : Store) (cid : String) :
    (CollectionEndpoint.list p store cid).2 = store := by
  unfold CollectionEndpoint.list
  split <;> rfl

/-- Retrieve never changes the store. -/
theorem retrieve_preserves_store (p : Principal) (store : Store)
    (cid slug : String) :
    (DetailEndpoint.retrieve p store cid slug).2 = store := by
  unfold DetailEndpoint.retrieve
  split
  · split <;> rfl
  · rfl

/-- C8: (course_id, mode_slug) uniquely identifies a record, and every
operation - list, create, retrieve, update, delete - preserves this
invariant from any store satisfying it. -/
theorem key_unique_preserved (p : Principal) (store : Store)
    (cid slug : String) (payload : CreatePayload) (patch : PatchPayload)
    (hu : keyUnique store) :
    keyUnique (CollectionEndpoint.list p store cid).2 ∧
    keyUnique (CollectionEndpoint.create p store payload).2 ∧
    keyUnique (DetailEndpoint.retrieve p store cid slug).2 ∧
    keyUnique (DetailEndpoint.update p store cid slug patch).2 ∧
    keyUnique (DetailEndpoint.delete p store cid slug).2 := by
  refine ⟨?_, ?_, ?_, ?_, ?_⟩
  · rw [list_preserves_store]
    exact hu
  · unfold CollectionEndpoint.create
    split
    case isFalse => exact hu
    case isTrue =>
      cases hfm : findMode store payload.course_id payload.mode_slug with
      | some m => exact hu
      | none =>
          show keyUnique (store ++ [CourseMode.make payload.course_id
            payload.mode_slug payload.mode_display_name
            (payload.min_price.getD 0) (payload.currency.getD "usd")])
          unfold keyUnique at hu ⊢
          rw [List.map_append, List.nodup_append]
          refine ⟨hu, List.nodup_singleton _, ?_⟩
          intro a ha ha2
          have hkey : a = (payload.course_id, payload.mode_slug) := by
            simpa [modeKey, CourseMode.make] using ha2
          obtain ⟨x, hx, hxa⟩ := List.mem_map.mp ha
          have hall := List.find?_eq_none.mp hfm x hx
          apply hall
          have hx1 : x.course_id = payload.course_id := by
            have := congrArg Prod.fst (hxa.trans hkey)
            simpa [modeKey] using this
          have hx2 : x.mode_slug = payload.mode_slug := by
            have := congrArg Prod.snd (hxa.trans hkey)
            simpa [modeKey] using this
          simp [hx1, hx2]
  · rw [retrieve_preserves_store]
    exact hu
  · unfold DetailEndpoint.update
    split
    case isFalse => exact hu
    case isTrue =>
      cases hfm : findMode store cid slug with
      | none => exact hu
      | some m =>
          show keyUnique (store.map (fun m =>
            if m.course_id == cid && m.mode_slug == slug then
              applyPatch patch m else m))
          unfold keyUnique at hu ⊢
          rw [List.map_map]
          have hcomp : (modeKey ∘ fun m =>
              if m.course_id == cid && m.mode_slug == slug then
                applyPatch patch m else m) = modeKey := by
            funext m
            by_cases hm : (m.course_id == cid && m.mode_slug == slug) = true
            · simp only [Function.comp_apply, if_pos hm,
                applyPatch_modeKey]
            · simp only [Function.comp_apply, if_neg hm]
          rw [hcomp]
          exact hu
  · unfold DetailEndpoint.delete
    split
    case isFalse => exact hu
    case isTrue =>
      cases hfm : findMode store cid slug with
      | none => exact hu
      | some m =>
          show keyUnique (store.filter (fun m =>
            !(m.course_id == cid && m.mode_slug == slug)))
          unfold keyUnique at hu ⊢
          exact List.Nodup.sublist
            (List.Sublist.map modeKey (List.filter_sublist store)) hu

/-- Witness for C8: the demo store satisfies the invariant and every
operation preserves it at the test-suite inputs. -/
theorem key_unique_preserved_witness :
    keyUnique demoStore ∧
    (keyUnique (CollectionEndpoint.list staffUser demoStore demoCourse).2 ∧
      keyUnique (CollectionEndpoint.create staffUser demoStore
        mastersPayload).2 ∧
      keyUnique (DetailEndpoint.retrieve staffUser demoStore demoCourse
        "audit").2 ∧
      keyUnique (DetailEndpoint.update staffUser demoStore demoCourse "audit"
        profEdPatch).2 ∧
      keyUnique (DetailEndpoint.delete staffUser demoStore demoCourse
        "audit").2) :=
  ⟨by decide,
    key_unique_preserved staffUser demoStore demoCourse "audit"
      mastersPayload profEdPatch (by decide)⟩

/-- C10: the mailchimp_id handle operation succeeds (exit status 0, printing
the matching list's id and name) iff some list returned for the key has the
given web_id; otherwise it prints the not-found message and exits with
status 1. -/
theorem mailchimp_handle_correct (key : String) (w : Int)
    (lists : List MailchimpId.MailingList) :
    ((MailchimpId.handle key w lists).exitCode = 0 ↔
      ∃ l ∈ lists, l.web_id = w) ∧
    ((¬ ∃ l ∈ lists, l.web_id = w) →
      MailchimpId.handle key w lists =
        { output := ["list with web_id: " ++ toString w ++ " not found."]
          exitCode := 1 }) ∧
    (∀ l, MailchimpId.byWebId lists w = some l →
      l ∈ lists ∧ l.web_id = w ∧
      (MailchimpId.handle key w lists).output =
        ["id: " ++ l.id ++ " for web_id: " ++ toString w,
         "list name: " ++ l.name]) := by
  refine ⟨?_, ?_, ?_⟩
  · unfold MailchimpId.handle
    cases hfind : MailchimpId.byWebId lists w with
    | some l =>
        refine iff_of_true rfl ?_
        have hmem := List.mem_of_find?_eq_some hfind
        have hp := List.find?_some hfind
        exact ⟨l, List.mem_reverse.mp hmem, by simpa using hp⟩
    | none =>
        refine ⟨fun h => absurd h Nat.one_ne_zero, ?_⟩
        rintro ⟨l, hl, hw⟩
        exfalso
        have hall : ∀ x ∈ lists.reverse, ¬ (x.web_id == w) = true :=
          List.find?_eq_none.mp hfind
        exact hall l (List.mem_reverse.mpr hl) (by simpa using hw)
  · intro hno
    unfold MailchimpId.handle
    cases hfind : MailchimpId.byWebId lists w with
    | some l =>
        exfalso
        have hmem := List.mem_of_find?_eq_some hfind
        have hp := List.find?_some hfind
        exact hno ⟨l, List.mem_reverse.mp hmem, by simpa using hp⟩
    | none => rfl
  · intro l hfind
    have hmem := List.mem_of_find?_eq_some hfind
    have hp := List.find?_some hfind
    refine ⟨List.mem_reverse.mp hmem, by simpa using hp, ?_⟩
    unfold MailchimpId.handle
    rw [hfind]

/-- Witness for C10 at a concrete input: with a single list of web_id 7 the
command finds it, prints its id and name, and exits with status 0. -/
theorem mailchimp_handle_correct_witness :
    ((MailchimpId.handle "apikey" 7
          [{ web_id := 7, id := "abc123", name := "seven" }]).exitCode = 0 ↔
      ∃ l ∈ [({ web_id := 7, id := "abc123", name := "seven" } :
          MailchimpId.MailingList)], l.web_id = 7) ∧
    ((¬ ∃ l ∈ [({ web_id := 7, id := "abc123", name := "seven" } :
          MailchimpId.MailingList)], l.web_id = 7) →
      MailchimpId.handle "apikey" 7
          [{ web_id := 7, id := "abc123", name := "seven" }] =
        { output := ["list with web_id: " ++ toString (7 : Int) ++
            " not found."]
          exitCode := 1 }) ∧
    (∀ l, MailchimpId.byWebId
        [{ web_id := 7, id := "abc123", name := "seven" }] 7 = some l →
      l ∈ [({ web_id := 7, id := "abc123", name := "seven" } :
          MailchimpId.MailingList)] ∧ l.web_id = 7 ∧
      (MailchimpId.handle "apikey" 7
          [{ web_id := 7, id := "abc123", name := "seven" }]).output =
        ["id: " ++ l.id ++ " for web_id: " ++ toString (7 : Int),
         "list name: " ++ l.name]) :=
  mailchimp_handle_correct "apikey" 7
    [{ web_id := 7, id := "abc123", name := "seven" }]

end EdxPlatform
